import Mathlib

/-!
Verification of the surcharging ROI calculator.

The repository contains two variants of the core calculation function
`calculateROI`:

* `src/script.js` — the "FormulaModel" variant: an exact surcharge formula
  with a 2.913% base processing rate and a 3% surcharge on credit-card volume;
* `src/unnamed/part_000` — the "FlatRateModel" variant: a flat 1.39%
  effective rate applied to the whole monthly volume.

Both variants read five numeric inputs, reject `monthlyVolume <= 0` with a
user-facing validation message (and produce no result), and otherwise compute
a cost comparison that is handed to `updateResults` for display.

The arithmetic is embedded over `ℚ`; every intermediate `const` of the source
becomes one Lean definition with the source's name.  The UI event wiring that
matters for the claims (blur handlers clamping percentage fields, the Enter
key invoking the calculation) is embedded as a small labelled transition
system over the form's field values.
-/

/-- The five numeric inputs read at the top of `calculateROI` (both variants):
`monthlyVolume`, `creditCardPercentage`, `competitorRate`, `competitorSaas`
(the competitor's fixed/subscription cost) and `diCost` (the evaluated
model's own fixed cost). -/
structure CalculationInput where
  monthlyVolume : ℚ
  creditCardPercentage : ℚ
  competitorRate : ℚ
  competitorSaas : ℚ
  diCost : ℚ
deriving DecidableEq, Repr

/-- The record passed to `updateResults` (both variants): the competitor's
fixed, processing and total costs, the own ("DI") fixed, processing and total
costs, and the monthly and annual savings. -/
structure CalculationResult where
  competitorSaas : ℚ
  competitorProcessing : ℚ
  competitorTotal : ℚ
  diSaas : ℚ
  diProcessing : ℚ
  diTotal : ℚ
  monthlySavings : ℚ
  annualSavings : ℚ
deriving DecidableEq, Repr

/-- The single error kind of the core: `monthlyVolume <= 0` is rejected
(the source alerts the user and returns without computing a result). -/
inductive ValidationError where
  | invalidVolume
deriving DecidableEq, Repr

namespace FormulaModel

/-- Line 110 of `src/script.js`:
`const creditCardVolume = monthlyVolume * (creditCardPercentage / 100)`. -/
def creditCardVolume (i : CalculationInput) : ℚ :=
  i.monthlyVolume * (i.creditCardPercentage / 100)

/-- Line 111 of `src/script.js`:
`const debitVolume = monthlyVolume - creditCardVolume`. -/
def debitVolume (i : CalculationInput) : ℚ :=
  i.monthlyVolume - creditCardVolume i

/-- Line 114 of `src/script.js`:
`const competitorRateDecimal = competitorRate / 100`. -/
def competitorRateDecimal (i : CalculationInput) : ℚ :=
  i.competitorRate / 100

/-- Line 115 of `src/script.js`:
`const competitorProcessingCost = monthlyVolume * competitorRateDecimal`. -/
def competitorProcessingCost (i : CalculationInput) : ℚ :=
  i.monthlyVolume * competitorRateDecimal i

/-- Line 116 of `src/script.js`:
`const competitorTotalCost = competitorSaas + competitorProcessingCost`. -/
def competitorTotalCost (i : CalculationInput) : ℚ :=
  i.competitorSaas + competitorProcessingCost i

/-- Line 127 of `src/script.js`: `const baseProcessingRate = 0.02913`. -/
def baseProcessingRate : ℚ := 0.02913

/-- Line 128 of `src/script.js`:
`const surchargeCollected = creditCardVolume * 0.03`. -/
def surchargeCollected (i : CalculationInput) : ℚ :=
  creditCardVolume i * 0.03

/-- Lines 131-132 of `src/script.js`:
`const feesWithSurcharging = ((monthlyVolume + surchargeCollected) * baseProcessingRate) - ((creditCardVolume + surchargeCollected) * baseProcessingRate)`. -/
def feesWithSurcharging (i : CalculationInput) : ℚ :=
  ((i.monthlyVolume + surchargeCollected i) * baseProcessingRate) -
    ((creditCardVolume i + surchargeCollected i) * baseProcessingRate)

/-- Line 135 of `src/script.js`:
`const adjustedVolume = monthlyVolume + surchargeCollected`. -/
def adjustedVolume (i : CalculationInput) : ℚ :=
  i.monthlyVolume + surchargeCollected i

/-- Line 136 of `src/script.js`:
`const effectiveRate = feesWithSurcharging / adjustedVolume` (no guard in
the source; in this `ℚ` embedding division by zero yields zero, where the
JavaScript would produce a non-finite number). -/
def effectiveRate (i : CalculationInput) : ℚ :=
  feesWithSurcharging i / adjustedVolume i

/-- Line 138 of `src/script.js`: `const diProcessingCost = feesWithSurcharging`. -/
def diProcessingCost (i : CalculationInput) : ℚ :=
  feesWithSurcharging i

/-- Line 139 of `src/script.js`: `const diTotalCost = diCost + diProcessingCost`. -/
def diTotalCost (i : CalculationInput) : ℚ :=
  i.diCost + diProcessingCost i

/-- Line 142 of `src/script.js`:
`const monthlySavings = competitorTotalCost - diTotalCost`. -/
def monthlySavings (i : CalculationInput) : ℚ :=
  competitorTotalCost i - diTotalCost i

/-- Line 143 of `src/script.js`: `const annualSavings = monthlySavings * 12`. -/
def annualSavings (i : CalculationInput) : ℚ :=
  monthlySavings i * 12

/-- Lines 104-155 of `src/script.js`: `calculateROI` validates
`monthlyVolume <= 0` (alert and early return, embedded as the error case)
and otherwise assembles the record passed to `updateResults`. -/
def calculateROI (i : CalculationInput) : Except ValidationError CalculationResult :=
  if i.monthlyVolume ≤ 0 then .error .invalidVolume
  else .ok
    { competitorSaas := i.competitorSaas
      competitorProcessing := competitorProcessingCost i
      competitorTotal := competitorTotalCost i
      diSaas := i.diCost
      diProcessing := diProcessingCost i
      diTotal := diTotalCost i
      monthlySavings := monthlySavings i
      annualSavings := annualSavings i }

end FormulaModel

namespace FlatRateModel

/-- Line 2 of `src/unnamed/part_000`: `const DI_SURCHARGE_RATE = 1.39`. -/
def DI_SURCHARGE_RATE : ℚ := 1.39

/-- Line 3 of `src/unnamed/part_000`:
`const DI_SURCHARGE_RATE_DECIMAL = DI_SURCHARGE_RATE / 100`. -/
def DI_SURCHARGE_RATE_DECIMAL : ℚ := DI_SURCHARGE_RATE / 100

/-- Line 102 of `src/unnamed/part_000`:
`const creditCardVolume = monthlyVolume * (creditCardPercentage / 100)`. -/
def creditCardVolume (i : CalculationInput) : ℚ :=
  i.monthlyVolume * (i.creditCardPercentage / 100)

/-- Line 103 of `src/unnamed/part_000`:
`const debitVolume = monthlyVolume - creditCardVolume`. -/
def debitVolume (i : CalculationInput) : ℚ :=
  i.monthlyVolume - creditCardVolume i

/-- Line 106 of `src/unnamed/part_000`:
`const competitorRateDecimal = competitorRate / 100`. -/
def competitorRateDecimal (i : CalculationInput) : ℚ :=
  i.competitorRate / 100

/-- Line 107 of `src/unnamed/part_000`:
`const competitorProcessingCost = monthlyVolume * competitorRateDecimal`. -/
def competitorProcessingCost (i : CalculationInput) : ℚ :=
  i.monthlyVolume * competitorRateDecimal i

/-- Line 108 of `src/unnamed/part_000`:
`const competitorTotalCost = competitorSaas + competitorProcessingCost`. -/
def competitorTotalCost (i : CalculationInput) : ℚ :=
  i.competitorSaas + competitorProcessingCost i

/-- Line 113 of `src/unnamed/part_000`:
`const diProcessingCost = monthlyVolume * DI_SURCHARGE_RATE_DECIMAL`. -/
def diProcessingCost (i : CalculationInput) : ℚ :=
  i.monthlyVolume * DI_SURCHARGE_RATE_DECIMAL

/-- Line 114 of `src/unnamed/part_000`:
`const diTotalCost = diCost + diProcessingCost`. -/
def diTotalCost (i : CalculationInput) : ℚ :=
  i.diCost + diProcessingCost i

/-- Line 117 of `src/unnamed/part_000`:
`const monthlySavings = competitorTotalCost - diTotalCost`. -/
def monthlySavings (i : CalculationInput) : ℚ :=
  competitorTotalCost i - diTotalCost i

/-- Line 118 of `src/unnamed/part_000`: `const annualSavings = monthlySavings * 12`. -/
def annualSavings (i : CalculationInput) : ℚ :=
  monthlySavings i * 12

/-- Lines 96-130 of `src/unnamed/part_000`: `calculateROI` validates
`monthlyVolume <= 0` (alert and early return, embedded as the error case)
and otherwise assembles the record passed to `updateResults`. -/
def calculateROI (i : CalculationInput) : Except ValidationError CalculationResult :=
  if i.monthlyVolume ≤ 0 then .error .invalidVolume
  else .ok
    { competitorSaas := i.competitorSaas
      competitorProcessing := competitorProcessingCost i
      competitorTotal := competitorTotalCost i
      diSaas := i.diCost
      diProcessing := diProcessingCost i
      diTotal := diTotalCost i
      monthlySavings := monthlySavings i
      annualSavings := annualSavings i }

end FlatRateModel

/-! The UI wiring relevant to the claims (lines 206-246 of `src/script.js`,
lines 181-217 of `src/unnamed/part_000`): the five form fields hold values the
user can edit; blurring `creditCardPercentage` or `competitorRate` clamps that
field to `[0,100]`; blurring a monetary field clamps it below at `0`; pressing
Enter in a field invokes `calculateROI` on the current field values.  The text
content of a field is abstracted to the rational it parses to. -/

/-- The five editable input fields of the form. -/
inductive FieldId where
  | monthlyVolume
  | creditCardPercentage
  | competitorRate
  | competitorSaas
  | diCost
deriving DecidableEq, Repr

/-- Current numeric values of the five form fields. -/
structure FormState where
  monthlyVolume : ℚ
  creditCardPercentage : ℚ
  competitorRate : ℚ
  competitorSaas : ℚ
  diCost : ℚ
deriving DecidableEq, Repr

/-- Read one field of the form. -/
def FormState.get (s : FormState) : FieldId → ℚ
  | .monthlyVolume => s.monthlyVolume
  | .creditCardPercentage => s.creditCardPercentage
  | .competitorRate => s.competitorRate
  | .competitorSaas => s.competitorSaas
  | .diCost => s.diCost

/-- Overwrite one field of the form. -/
def FormState.set (s : FormState) : FieldId → ℚ → FormState
  | .monthlyVolume, v => { s with monthlyVolume := v }
  | .creditCardPercentage, v => { s with creditCardPercentage := v }
  | .competitorRate, v => { s with competitorRate := v }
  | .competitorSaas, v => { s with competitorSaas := v }
  | .diCost, v => { s with diCost := v }

/-- The input record `calculateROI` reads from the current field values. -/
def FormState.toInput (s : FormState) : CalculationInput :=
  { monthlyVolume := s.monthlyVolume
    creditCardPercentage := s.creditCardPercentage
    competitorRate := s.competitorRate
    competitorSaas := s.competitorSaas
    diCost := s.diCost }

/-- Blur handler for the percentage fields (lines 224-229 of `src/script.js`):
`if (value < 0) value = 0; if (value > 100) value = 100`. -/
def clampPercent (v : ℚ) : ℚ :=
  if v < 0 then 0 else if v > 100 then 100 else v

/-- Blur handler for the monetary fields (lines 238-244 of `src/script.js`):
`if (isNaN(value) || value < 0) value = 0` (the NaN branch has no rational
counterpart; comma formatting does not change the parsed value). -/
def clampMonetary (v : ℚ) : ℚ :=
  if v < 0 then 0 else v

/-- Which blur handler is attached to which field: `creditCardPercentage` and
`competitorRate` get the percentage clamp, the three monetary fields get the
nonnegativity clamp. -/
def blurHandler : FieldId → ℚ → ℚ
  | .creditCardPercentage, v => clampPercent v
  | .competitorRate, v => clampPercent v
  | .monthlyVolume, v => clampMonetary v
  | .competitorSaas, v => clampMonetary v
  | .diCost, v => clampMonetary v

/-- User-visible events the wiring reacts to: editing a field's text,
the field losing focus (blur), and pressing Enter (which invokes
`calculateROI` on the current values). -/
inductive UiEvent where
  | setValue (f : FieldId) (v : ℚ)
  | blur (f : FieldId)
  | pressEnter
deriving DecidableEq, Repr

/-- One step of the UI: the next form state, and the input handed to the
core calculation when the event triggers one.  Only `blur` runs a clamp;
typing (`setValue`) stores the raw value, and Enter invokes the core on
whatever the fields currently hold. -/
def stepUi (s : FormState) : UiEvent → FormState × Option CalculationInput
  | .setValue f v => (s.set f v, none)
  | .blur f => (s.set f (blurHandler f (s.get f)), none)
  | .pressEnter => (s, some s.toInput)

/-- All inputs handed to the core calculation along a sequence of UI events. -/
def coreInvocations (s : FormState) : List UiEvent → List CalculationInput
  | [] => []
  | e :: es =>
    match stepUi s e with
    | (s2, some i) => i :: coreInvocations s2 es
    | (s2, none) => coreInvocations s2 es

/-! Claim theorems. -/

/-- C1: FormulaModel worked example.  For monthlyVolume=10000,
creditCardPercentage=50, competitorRate=3, competitorFixedCost=100,
ownFixedCost=100, the computation yields creditCardVolume=5000,
surchargeCollected=150, ownProcessingCost=145.65, ownTotalCost=245.65,
competitorProcessingCost=300, competitorTotalCost=400, monthlySavings=154.35
and annualSavings=1852.20. -/
theorem C1_formulaModel_worked_example :
    FormulaModel.creditCardVolume ⟨10000, 50, 3, 100, 100⟩ = 5000 ∧
    FormulaModel.surchargeCollected ⟨10000, 50, 3, 100, 100⟩ = 150 ∧
    FormulaModel.diProcessingCost ⟨10000, 50, 3, 100, 100⟩ = 145.65 ∧
    FormulaModel.diTotalCost ⟨10000, 50, 3, 100, 100⟩ = 245.65 ∧
    FormulaModel.competitorProcessingCost ⟨10000, 50, 3, 100, 100⟩ = 300 ∧
    FormulaModel.competitorTotalCost ⟨10000, 50, 3, 100, 100⟩ = 400 ∧
    FormulaModel.monthlySavings ⟨10000, 50, 3, 100, 100⟩ = 154.35 ∧
    FormulaModel.annualSavings ⟨10000, 50, 3, 100, 100⟩ = 1852.20 := by
  norm_num [FormulaModel.creditCardVolume, FormulaModel.surchargeCollected,
    FormulaModel.diProcessingCost, FormulaModel.diTotalCost,
    FormulaModel.feesWithSurcharging, FormulaModel.baseProcessingRate,
    FormulaModel.competitorProcessingCost, FormulaModel.competitorTotalCost,
    FormulaModel.competitorRateDecimal, FormulaModel.monthlySavings,
    FormulaModel.annualSavings]

/-- C2: FlatRateModel worked example.  For monthlyVolume=10000,
competitorRate=3, competitorFixedCost=100, ownFixedCost=100 and any
creditCardPercentage, the computation yields ownProcessingCost=139,
ownTotalCost=239, monthlySavings=161 and annualSavings=1932. -/
theorem C2_flatRateModel_worked_example (p : ℚ) :
    FlatRateModel.diProcessingCost ⟨10000, p, 3, 100, 100⟩ = 139 ∧
    FlatRateModel.diTotalCost ⟨10000, p, 3, 100, 100⟩ = 239 ∧
    FlatRateModel.monthlySavings ⟨10000, p, 3, 100, 100⟩ = 161 ∧
    FlatRateModel.annualSavings ⟨10000, p, 3, 100, 100⟩ = 1932 := by
  refine ⟨?_, ?_, ?_, ?_⟩ <;>
    norm_num [FlatRateModel.diProcessingCost, FlatRateModel.diTotalCost,
      FlatRateModel.monthlySavings, FlatRateModel.annualSavings,
      FlatRateModel.competitorTotalCost, FlatRateModel.competitorProcessingCost,
      FlatRateModel.competitorRateDecimal, FlatRateModel.DI_SURCHARGE_RATE_DECIMAL,
      FlatRateModel.DI_SURCHARGE_RATE]

/-- C3: for every input, both variants compute
competitorProcessingCost = monthlyVolume × (competitorRate/100),
competitorTotalCost = competitorFixedCost + competitorProcessingCost and
ownTotalCost = ownFixedCost + ownProcessingCost; in FormulaModel,
ownProcessingCost = ((monthlyVolume + surchargeCollected) × 0.02913) −
((creditCardVolume + surchargeCollected) × 0.02913) with
creditCardVolume = monthlyVolume × (creditCardPercentage/100) and
surchargeCollected = creditCardVolume × 0.03. -/
theorem C3_shared_cost_structure (i : CalculationInput) :
    FormulaModel.competitorProcessingCost i = i.monthlyVolume * (i.competitorRate / 100) ∧
    FlatRateModel.competitorProcessingCost i = i.monthlyVolume * (i.competitorRate / 100) ∧
    FormulaModel.competitorTotalCost i = i.competitorSaas + FormulaModel.competitorProcessingCost i ∧
    FlatRateModel.competitorTotalCost i = i.competitorSaas + FlatRateModel.competitorProcessingCost i ∧
    FormulaModel.diTotalCost i = i.diCost + FormulaModel.diProcessingCost i ∧
    FlatRateModel.diTotalCost i = i.diCost + FlatRateModel.diProcessingCost i ∧
    FormulaModel.creditCardVolume i = i.monthlyVolume * (i.creditCardPercentage / 100) ∧
    FormulaModel.surchargeCollected i = FormulaModel.creditCardVolume i * 0.03 ∧
    FormulaModel.diProcessingCost i =
      ((i.monthlyVolume + FormulaModel.surchargeCollected i) * 0.02913) -
        ((FormulaModel.creditCardVolume i + FormulaModel.surchargeCollected i) * 0.02913) :=
  ⟨rfl, rfl, rfl, rfl, rfl, rfl, rfl, rfl, rfl⟩

/-- C4: for every input with monthlyVolume ≤ 0, both variants report the
single error kind InvalidVolume as a result-level failure and produce no
CalculationResult (so `updateResults` is never reached). -/
theorem C4_invalid_volume_rejected (i : CalculationInput) (h : i.monthlyVolume ≤ 0) :
    FormulaModel.calculateROI i = Except.error ValidationError.invalidVolume ∧
    FlatRateModel.calculateROI i = Except.error ValidationError.invalidVolume := by
  refine ⟨?_, ?_⟩ <;> simp [FormulaModel.calculateROI, FlatRateModel.calculateROI, h]

/-- Witness for C4 at monthlyVolume = 0. -/
theorem C4_invalid_volume_rejected_witness :
    (⟨0, 50, 3, 100, 100⟩ : CalculationInput).monthlyVolume ≤ 0 ∧
    (FormulaModel.calculateROI ⟨0, 50, 3, 100, 100⟩ =
        Except.error ValidationError.invalidVolume ∧
      FlatRateModel.calculateROI ⟨0, 50, 3, 100, 100⟩ =
        Except.error ValidationError.invalidVolume) :=
  ⟨le_refl 0, C4_invalid_volume_rejected ⟨0, 50, 3, 100, 100⟩ (le_refl 0)⟩

/-- C5: the surcharge netting reduces FormulaModel's ownProcessingCost to the
debit-card-only fee base, the surcharge terms cancelling exactly (the
residual from taxing the surcharge pass-through is identically zero); in
particular with creditCardPercentage = 100 the processing cost is exactly 0:
the surcharge fully offsets the card fees. -/
theorem C5_surcharge_netting (i : CalculationInput) :
    FormulaModel.diProcessingCost i =
      FormulaModel.debitVolume i * FormulaModel.baseProcessingRate ∧
    (i.creditCardPercentage = 100 → FormulaModel.diProcessingCost i = 0) := by
  have hbase : FormulaModel.diProcessingCost i =
      FormulaModel.debitVolume i * FormulaModel.baseProcessingRate := by
    unfold FormulaModel.diProcessingCost FormulaModel.feesWithSurcharging
      FormulaModel.debitVolume FormulaModel.creditCardVolume
      FormulaModel.surchargeCollected FormulaModel.baseProcessingRate
    ring
  refine ⟨hbase, fun h => ?_⟩
  rw [hbase]
  unfold FormulaModel.debitVolume FormulaModel.creditCardVolume
  rw [h]
  ring

/-- Witness for C5 at creditCardPercentage = 100. -/
theorem C5_surcharge_netting_witness :
    (⟨10000, 100, 3, 100, 100⟩ : CalculationInput).creditCardPercentage = 100 ∧
    FormulaModel.diProcessingCost ⟨10000, 100, 3, 100, 100⟩ =
      FormulaModel.debitVolume ⟨10000, 100, 3, 100, 100⟩ * FormulaModel.baseProcessingRate ∧
    FormulaModel.diProcessingCost ⟨10000, 100, 3, 100, 100⟩ = 0 :=
  ⟨rfl, (C5_surcharge_netting ⟨10000, 100, 3, 100, 100⟩).1,
    (C5_surcharge_netting ⟨10000, 100, 3, 100, 100⟩).2 rfl⟩

/-- C6 counterexample: the effective-rate division in `src/script.js` has no
guard, and under the sole precondition monthlyVolume > 0 its divisor
monthlyVolume + surchargeCollected can be exactly zero: at
monthlyVolume = 10000 and creditCardPercentage = -10000/3 the adjusted
volume is 0, so the claim as stated is false. -/
theorem C6_counterexample :
    (⟨10000, -10000/3, 3, 100, 100⟩ : CalculationInput).monthlyVolume > 0 ∧
    FormulaModel.adjustedVolume ⟨10000, -10000/3, 3, 100, 100⟩ = 0 := by
  constructor
  · exact (by norm_num : (0:ℚ) < 10000)
  · norm_num [FormulaModel.adjustedVolume, FormulaModel.surchargeCollected,
      FormulaModel.creditCardVolume]

/-- C6 amended: the core's only divisions are by the constant 100 and the
effective-rate derivation's division by monthlyVolume + surchargeCollected;
the source performs no explicit guard on the latter, but under
monthlyVolume > 0 together with creditCardPercentage ≥ 0 (which the caller's
clamping provides) the divisor is strictly positive, so no divide-by-zero
occurs. -/
theorem C6_no_divide_by_zero (i : CalculationInput) (h1 : 0 < i.monthlyVolume)
    (h2 : 0 ≤ i.creditCardPercentage) :
    0 < FormulaModel.adjustedVolume i ∧ FormulaModel.adjustedVolume i ≠ 0 := by
  have hpos : 0 < FormulaModel.adjustedVolume i := by
    unfold FormulaModel.adjustedVolume FormulaModel.surchargeCollected
      FormulaModel.creditCardVolume
    have hnn : 0 ≤ i.monthlyVolume * (i.creditCardPercentage / 100) * 0.03 :=
      mul_nonneg (mul_nonneg h1.le (div_nonneg h2 (by norm_num))) (by norm_num)
    linarith
  exact ⟨hpos, ne_of_gt hpos⟩

/-- Witness for C6 amended at the worked-example input. -/
theorem C6_no_divide_by_zero_witness :
    ((0:ℚ) < (⟨10000, 50, 3, 100, 100⟩ : CalculationInput).monthlyVolume ∧
      (0:ℚ) ≤ (⟨10000, 50, 3, 100, 100⟩ : CalculationInput).creditCardPercentage) ∧
    (0 < FormulaModel.adjustedVolume ⟨10000, 50, 3, 100, 100⟩ ∧
      FormulaModel.adjustedVolume ⟨10000, 50, 3, 100, 100⟩ ≠ 0) := by
  have h1 : (0:ℚ) < (⟨10000, 50, 3, 100, 100⟩ : CalculationInput).monthlyVolume := by
    show (0:ℚ) < 10000
    norm_num
  have h2 : (0:ℚ) ≤ (⟨10000, 50, 3, 100, 100⟩ : CalculationInput).creditCardPercentage := by
    show (0:ℚ) ≤ 50
    norm_num
  exact ⟨⟨h1, h2⟩, C6_no_divide_by_zero ⟨10000, 50, 3, 100, 100⟩ h1 h2⟩

/-- C7: every result either variant produces satisfies
annualSavings = monthlySavings × 12 exactly. -/
theorem C7_annual_equals_twelve_monthly (i : CalculationInput) (r : CalculationResult) :
    (FormulaModel.calculateROI i = Except.ok r →
      r.annualSavings = r.monthlySavings * 12) ∧
    (FlatRateModel.calculateROI i = Except.ok r →
      r.annualSavings = r.monthlySavings * 12) := by
  refine ⟨fun h => ?_, fun h => ?_⟩
  · unfold FormulaModel.calculateROI at h
    split at h
    · exact Except.noConfusion h
    · rw [Except.ok.injEq] at h
      subst h
      rfl
  · unfold FlatRateModel.calculateROI at h
    split at h
    · exact Except.noConfusion h
    · rw [Except.ok.injEq] at h
      subst h
      rfl

/-- Witness for C7 at the worked-example input and its result record. -/
theorem C7_annual_equals_twelve_monthly_witness :
    (⟨100, 300, 400, 100, 145.65, 245.65, 154.35, 1852.20⟩ : CalculationResult).annualSavings =
      (⟨100, 300, 400, 100, 145.65, 245.65, 154.35, 1852.20⟩ : CalculationResult).monthlySavings * 12 := by
  have h : FormulaModel.calculateROI ⟨10000, 50, 3, 100, 100⟩ =
      Except.ok ⟨100, 300, 400, 100, 145.65, 245.65, 154.35, 1852.20⟩ := by
    norm_num [FormulaModel.calculateROI, FormulaModel.creditCardVolume,
      FormulaModel.surchargeCollected, FormulaModel.diProcessingCost,
      FormulaModel.diTotalCost, FormulaModel.feesWithSurcharging,
      FormulaModel.baseProcessingRate, FormulaModel.competitorProcessingCost,
      FormulaModel.competitorTotalCost, FormulaModel.competitorRateDecimal,
      FormulaModel.monthlySavings, FormulaModel.annualSavings]
  exact (C7_annual_equals_twelve_monthly ⟨10000, 50, 3, 100, 100⟩ _).1 h

/-- C8 counterexample: with monthlyVolume = 10000 > 0 and all five input
fields ≥ 0 but creditCardPercentage = 150 and zero fixed costs, FormulaModel's
ownTotalCost is -145.65 < 0, so the claim as stated is false. -/
theorem C8_counterexample :
    (⟨10000, 150, 0, 0, 0⟩ : CalculationInput).monthlyVolume > 0 ∧
    (0:ℚ) ≤ (⟨10000, 150, 0, 0, 0⟩ : CalculationInput).monthlyVolume ∧
    (0:ℚ) ≤ (⟨10000, 150, 0, 0, 0⟩ : CalculationInput).creditCardPercentage ∧
    (0:ℚ) ≤ (⟨10000, 150, 0, 0, 0⟩ : CalculationInput).competitorRate ∧
    (0:ℚ) ≤ (⟨10000, 150, 0, 0, 0⟩ : CalculationInput).competitorSaas ∧
    (0:ℚ) ≤ (⟨10000, 150, 0, 0, 0⟩ : CalculationInput).diCost ∧
    FormulaModel.diTotalCost ⟨10000, 150, 0, 0, 0⟩ = -145.65 ∧
    FormulaModel.diTotalCost ⟨10000, 150, 0, 0, 0⟩ < 0 := by
  refine ⟨(by norm_num : (0:ℚ) < 10000), (by norm_num : (0:ℚ) ≤ 10000),
    (by norm_num : (0:ℚ) ≤ 150), le_refl 0, le_refl 0, le_refl 0, ?_, ?_⟩ <;>
    norm_num [FormulaModel.diTotalCost, FormulaModel.diProcessingCost,
      FormulaModel.feesWithSurcharging, FormulaModel.baseProcessingRate,
      FormulaModel.surchargeCollected, FormulaModel.creditCardVolume]

/-- C8 amended: for every input with monthlyVolume > 0, all five input fields
≥ 0 and additionally creditCardPercentage ≤ 100 (the range the data model
prescribes and the caller's clamping provides), both ownTotalCost and
competitorTotalCost are ≥ 0 in both variants. -/
theorem C8_totals_nonneg (i : CalculationInput) (h0 : 0 < i.monthlyVolume)
    (_h1 : 0 ≤ i.creditCardPercentage) (h2 : i.creditCardPercentage ≤ 100)
    (h3 : 0 ≤ i.competitorRate) (h4 : 0 ≤ i.competitorSaas) (h5 : 0 ≤ i.diCost) :
    (0 ≤ FormulaModel.diTotalCost i ∧ 0 ≤ FormulaModel.competitorTotalCost i) ∧
    (0 ≤ FlatRateModel.diTotalCost i ∧ 0 ≤ FlatRateModel.competitorTotalCost i) := by
  have hm := h0.le
  refine ⟨⟨?_, ?_⟩, ?_, ?_⟩
  · unfold FormulaModel.diTotalCost FormulaModel.diProcessingCost
      FormulaModel.feesWithSurcharging FormulaModel.surchargeCollected
      FormulaModel.creditCardVolume FormulaModel.baseProcessingRate
    nlinarith [mul_nonneg hm (sub_nonneg.mpr h2)]
  · unfold FormulaModel.competitorTotalCost FormulaModel.competitorProcessingCost
      FormulaModel.competitorRateDecimal
    exact add_nonneg h4 (mul_nonneg hm (div_nonneg h3 (by norm_num)))
  · unfold FlatRateModel.diTotalCost FlatRateModel.diProcessingCost
    exact add_nonneg h5 (mul_nonneg hm (by
      norm_num [FlatRateModel.DI_SURCHARGE_RATE_DECIMAL, FlatRateModel.DI_SURCHARGE_RATE]))
  · unfold FlatRateModel.competitorTotalCost FlatRateModel.competitorProcessingCost
      FlatRateModel.competitorRateDecimal
    exact add_nonneg h4 (mul_nonneg hm (div_nonneg h3 (by norm_num)))

/-- Witness for C8 amended at the worked-example input. -/
theorem C8_totals_nonneg_witness :
    ((0:ℚ) < (⟨10000, 50, 3, 100, 100⟩ : CalculationInput).monthlyVolume ∧
      (0:ℚ) ≤ (⟨10000, 50, 3, 100, 100⟩ : CalculationInput).creditCardPercentage ∧
      (⟨10000, 50, 3, 100, 100⟩ : CalculationInput).creditCardPercentage ≤ 100 ∧
      (0:ℚ) ≤ (⟨10000, 50, 3, 100, 100⟩ : CalculationInput).competitorRate ∧
      (0:ℚ) ≤ (⟨10000, 50, 3, 100, 100⟩ : CalculationInput).competitorSaas ∧
      (0:ℚ) ≤ (⟨10000, 50, 3, 100, 100⟩ : CalculationInput).diCost) ∧
    ((0 ≤ FormulaModel.diTotalCost ⟨10000, 50, 3, 100, 100⟩ ∧
        0 ≤ FormulaModel.competitorTotalCost ⟨10000, 50, 3, 100, 100⟩) ∧
      (0 ≤ FlatRateModel.diTotalCost ⟨10000, 50, 3, 100, 100⟩ ∧
        0 ≤ FlatRateModel.competitorTotalCost ⟨10000, 50, 3, 100, 100⟩)) := by
  have h0 : (0:ℚ) < (⟨10000, 50, 3, 100, 100⟩ : CalculationInput).monthlyVolume := by
    show (0:ℚ) < 10000
    norm_num
  have h1 : (0:ℚ) ≤ (⟨10000, 50, 3, 100, 100⟩ : CalculationInput).creditCardPercentage := by
    show (0:ℚ) ≤ 50
    norm_num
  have h2 : (⟨10000, 50, 3, 100, 100⟩ : CalculationInput).creditCardPercentage ≤ 100 := by
    show (50:ℚ) ≤ 100
    norm_num
  have h3 : (0:ℚ) ≤ (⟨10000, 50, 3, 100, 100⟩ : CalculationInput).competitorRate := by
    show (0:ℚ) ≤ 3
    norm_num
  have h4 : (0:ℚ) ≤ (⟨10000, 50, 3, 100, 100⟩ : CalculationInput).competitorSaas := by
    show (0:ℚ) ≤ 100
    norm_num
  have h5 : (0:ℚ) ≤ (⟨10000, 50, 3, 100, 100⟩ : CalculationInput).diCost := by
    show (0:ℚ) ≤ 100
    norm_num
  exact ⟨⟨h0, h1, h2, h3, h4, h5⟩,
    C8_totals_nonneg ⟨10000, 50, 3, 100, 100⟩ h0 h1 h2 h3 h4 h5⟩

/-- C9: the FlatRateModel variant ignores the credit/debit split entirely:
two inputs that differ only in creditCardPercentage give identical results
(in particular identical ownProcessingCost, ownTotalCost, monthlySavings and
annualSavings). -/
theorem C9_flat_rate_ignores_credit_split (a b : CalculationInput)
    (hm : a.monthlyVolume = b.monthlyVolume)
    (hr : a.competitorRate = b.competitorRate)
    (hs : a.competitorSaas = b.competitorSaas)
    (hd : a.diCost = b.diCost) :
    FlatRateModel.calculateROI a = FlatRateModel.calculateROI b := by
  obtain ⟨m1, c1, r1, s1, d1⟩ := a
  obtain ⟨m2, c2, r2, s2, d2⟩ := b
  dsimp only at hm hr hs hd
  subst hm
  subst hr
  subst hs
  subst hd
  rfl

/-- Witness for C9 on two inputs that differ only in creditCardPercentage. -/
theorem C9_flat_rate_ignores_credit_split_witness :
    ((⟨10000, 50, 3, 100, 100⟩ : CalculationInput).monthlyVolume =
        (⟨10000, 75, 3, 100, 100⟩ : CalculationInput).monthlyVolume ∧
      (⟨10000, 50, 3, 100, 100⟩ : CalculationInput).competitorRate =
        (⟨10000, 75, 3, 100, 100⟩ : CalculationInput).competitorRate ∧
      (⟨10000, 50, 3, 100, 100⟩ : CalculationInput).competitorSaas =
        (⟨10000, 75, 3, 100, 100⟩ : CalculationInput).competitorSaas ∧
      (⟨10000, 50, 3, 100, 100⟩ : CalculationInput).diCost =
        (⟨10000, 75, 3, 100, 100⟩ : CalculationInput).diCost) ∧
    FlatRateModel.calculateROI ⟨10000, 50, 3, 100, 100⟩ =
      FlatRateModel.calculateROI ⟨10000, 75, 3, 100, 100⟩ :=
  ⟨⟨rfl, rfl, rfl, rfl⟩,
    C9_flat_rate_ignores_credit_split ⟨10000, 50, 3, 100, 100⟩ ⟨10000, 75, 3, 100, 100⟩
      rfl rfl rfl rfl⟩

/-- C10 counterexample: clamping runs only in the blur handlers, not before
every invocation of the core.  Starting from the worked-example field values,
editing creditCardPercentage to 150 and pressing Enter (no blur in between)
invokes the core with creditCardPercentage = 150, which lies outside [0,100];
so the claim as stated is false. -/
theorem C10_counterexample :
    coreInvocations ⟨10000, 50, 3, 100, 100⟩
        [UiEvent.setValue FieldId.creditCardPercentage 150, UiEvent.pressEnter] =
      [⟨10000, 150, 3, 100, 100⟩] ∧
    ¬ (⟨10000, 150, 3, 100, 100⟩ : CalculationInput).creditCardPercentage ≤ 100 := by
  constructor
  · rfl
  · exact (by norm_num : ¬ (150:ℚ) ≤ 100)

/-- C10 amended: the blur handlers attached to creditCardPercentage and
competitorRate clamp the field to [0,100] when it loses focus (below 0
becomes 0, above 100 becomes 100, in-range values are unchanged), but the
clamp is not applied before every invocation, so the core can still receive
a percentage outside [0,100]; the core itself performs no clamping (at
creditCardPercentage = 150 it computes creditCardVolume = 15000, using the
raw value). -/
theorem C10_blur_clamps_percentages (s : FormState) (f : FieldId) (v : ℚ)
    (hf : f = FieldId.creditCardPercentage ∨ f = FieldId.competitorRate) :
    (0 ≤ blurHandler f v ∧ blurHandler f v ≤ 100) ∧
    (v < 0 → blurHandler f v = 0) ∧
    (100 < v → blurHandler f v = 100) ∧
    (0 ≤ v → v ≤ 100 → blurHandler f v = v) ∧
    (stepUi s (UiEvent.blur f)).1.get f = clampPercent (s.get f) ∧
    FormulaModel.creditCardVolume ⟨10000, 150, 3, 100, 100⟩ = 15000 := by
  have hcl : blurHandler f v = clampPercent v := by
    rcases hf with h | h <;> subst h <;> rfl
  have hstep : (stepUi s (UiEvent.blur f)).1.get f = clampPercent (s.get f) := by
    rcases hf with h | h <;> subst h <;> rfl
  rw [hcl]
  unfold clampPercent
  refine ⟨⟨?_, ?_⟩, ?_, ?_, ?_, hstep, ?_⟩
  · split_ifs with h1 h2 <;> linarith
  · split_ifs with h1 h2 <;> linarith
  · intro h
    rw [if_pos h]
  · intro h
    rw [if_neg (by linarith), if_pos h]
  · intro hl hu
    rw [if_neg (by linarith), if_neg (by linarith)]
  · norm_num [FormulaModel.creditCardVolume]

/-- Witness for C10 amended: the blur handler of creditCardPercentage applied
to the out-of-range value 150. -/
theorem C10_blur_clamps_percentages_witness :
    (FieldId.creditCardPercentage = FieldId.creditCardPercentage ∨
      FieldId.creditCardPercentage = FieldId.competitorRate) ∧
    ((0 ≤ blurHandler FieldId.creditCardPercentage 150 ∧
        blurHandler FieldId.creditCardPercentage 150 ≤ 100) ∧
      ((150:ℚ) < 0 → blurHandler FieldId.creditCardPercentage 150 = 0) ∧
      ((100:ℚ) < 150 → blurHandler FieldId.creditCardPercentage 150 = 100) ∧
      ((0:ℚ) ≤ 150 → (150:ℚ) ≤ 100 → blurHandler FieldId.creditCardPercentage 150 = 150) ∧
      (stepUi ⟨10000, 50, 3, 100, 100⟩
          (UiEvent.blur FieldId.creditCardPercentage)).1.get FieldId.creditCardPercentage =
        clampPercent ((⟨10000, 50, 3, 100, 100⟩ : FormState).get FieldId.creditCardPercentage) ∧
      FormulaModel.creditCardVolume ⟨10000, 150, 3, 100, 100⟩ = 15000) :=
  ⟨Or.inl rfl,
    C10_blur_clamps_percentages ⟨10000, 50, 3, 100, 100⟩ FieldId.creditCardPercentage 150
      (Or.inl rfl)⟩
